import Mathlib

/-!
Verification of the NYC car-crashes analysis backend (`src/backend/app.py`).

The development shallowly embeds the filter-and-aggregate query engine of the
Flask backend: the dataset is a list of collision-person rows, a filter
specification is a record of six optional string-valued keys, and
`computeStats` mirrors the `get_stats` request handler: sequential conjunctive
filtering followed by the aggregate bundle (totals, group-bys, time series,
heatmap, safety stats and the bounded geographic sample).

Modelling conventions:
  * pandas `NaN` / `NaT` cells are `Option.none`;
  * latitude/longitude are rationals (the source compares and never does
    arithmetic on them, so `ℚ` is an exact model of the float comparisons);
  * Python string truthiness (`if filters.get(k)`) is explicit: `None` and
    the empty string are falsy;
  * a raised-and-caught Python exception is `Except.error`.
-/

namespace CrashStats

/-- A calendar date, the payload of a non-null `CRASH_DATE` cell.  Pandas
timestamps also carry a time of day; the backend only ever uses the year,
the month (`dt.to_period` with monthly frequency) and the full stringified
value, so the day is kept and the time, always midnight in this dataset's
date column, is fixed in the stringification. -/
structure Date where
  year : Int
  month : Nat
  day : Nat
deriving Repr, DecidableEq

/-- One row of the cleaned crashes CSV: one person involved in one collision.
Fields are the columns `get_stats` touches; a `none` is a pandas `NaN`/`NaT`
cell. -/
structure Row where
  collision_id : Nat
  crash_date : Option Date
  borough : Option String
  vehicle_type : Option String
  contributing_factor : Option String
  person_type : Option String
  person_injury : Option String
  latitude : Option ℚ
  longitude : Option ℚ
  hour : Option Nat
  day : Option Nat
  season : Option String
  person_id : Nat
  safety_used : Option Nat
  persons_injured : Option Nat
  persons_killed : Option Nat
deriving Repr, DecidableEq

/-- The JSON body of a `/api/stats` request: each filter key is either absent
(`none`, which also models a JSON `null`, since `filters.get(k)` returns
Python `None` for both) or a string. -/
structure FilterSpec where
  borough : Option String
  year : Option String
  vehicle_type : Option String
  contributing_factor : Option String
  person_type : Option String
  injury_type : Option String
deriving Repr, DecidableEq

/-- The filter specification with no key present. -/
def specEmpty : FilterSpec :=
  { borough := none, year := none, vehicle_type := none,
    contributing_factor := none, person_type := none, injury_type := none }

/-- The filter specification with every key bound to the sentinel "All". -/
def specAll : FilterSpec :=
  { borough := some "All", year := some "All", vehicle_type := some "All",
    contributing_factor := some "All", person_type := some "All",
    injury_type := some "All" }

/-- The guard `if filters.get(k) and filters[k] != 'All'` of `get_stats`:
a key constrains the data exactly when it is present, truthy (Python `None`
and `""` are falsy) and not the sentinel `"All"`.  Returns the active
constraint value, or `none` when the dimension is unconstrained. -/
def activeVal (o : Option String) : Option String :=
  match o with
  | none => none
  | some s => if s = "" ∨ s = "All" then none else some s

/-- Digit-string to number; `none` when empty or containing a non-digit. -/
def digitsToNat : List Char → Option Nat
  | [] => none
  | cs =>
    if cs.all Char.isDigit then
      some (cs.foldl (fun acc c => 10 * acc + (c.toNat - 48)) 0)
    else none

/-- Python `int(s)` on a string: optional surrounding whitespace, an optional
sign, then decimal digits; anything else raises `ValueError` (`none` here). -/
def pyInt (s : String) : Option Int :=
  match s.trim.toList with
  | '+' :: rest => (digitsToNat rest).map Int.ofNat
  | '-' :: rest => (digitsToNat rest).map (fun n => -(n : Int))
  | cs => (digitsToNat cs).map Int.ofNat

/-- The derived `YEAR` column: `df['CRASH_DATE'].dt.year`, `NaN` for `NaT`. -/
def rowYear (r : Row) : Option Int :=
  r.crash_date.map Date.year

/-- One sequential filter step `filtered_df[filtered_df[col] == filters[k]]`
guarded by the activity check.  A `NaN` cell never equals a string, so rows
with a `none` cell are dropped whenever the constraint is active. -/
def filterEq (get : Row → Option String) (o : Option String) (l : List Row) :
    List Row :=
  match activeVal o with
  | some v => l.filter (fun r => get r == some v)
  | none => l

/-- The year filter step: `filtered_df[filtered_df['YEAR'] == int(filters['year'])]`.
`int(...)` raises `ValueError` on a non-numeric string, which the handler's
outer `except` turns into an error response. -/
def filterYear (o : Option String) (l : List Row) : Except String (List Row) :=
  match activeVal o with
  | some s =>
    match pyInt s with
    | some y => .ok (l.filter (fun r => rowYear r == some y))
    | none => .error ("invalid literal for int() with base 10: " ++ s)
  | none => .ok l

/-- The sequential filtering block of `get_stats` (lines 304-323): each of the
six constraints is applied in source order, conjunctively. -/
def applyFilters (f : FilterSpec) (df : List Row) : Except String (List Row) :=
  match filterYear f.year (filterEq Row.borough f.borough df) with
  | .error e => .error e
  | .ok d1 =>
    .ok (filterEq Row.person_injury f.injury_type
          (filterEq Row.person_type f.person_type
            (filterEq Row.contributing_factor f.contributing_factor
              (filterEq Row.vehicle_type f.vehicle_type d1))))

/-- Row-level reading of one non-year constraint: the row passes when the
dimension is unconstrained or its cell equals the constraint value. -/
def matchOpt (get : Row → Option String) (o : Option String) (r : Row) : Bool :=
  match activeVal o with
  | some v => get r == some v
  | none => true

/-- Row-level reading of the year constraint.  When the year value does not
parse no row passes (the request errors before producing any row set). -/
def matchYear (o : Option String) (r : Row) : Bool :=
  match activeVal o with
  | some s =>
    match pyInt s with
    | some y => rowYear r == some y
    | none => false
  | none => true

/-- A row matches a filter specification when it passes all six constraints. -/
def matchesSpec (f : FilterSpec) (r : Row) : Bool :=
  matchOpt Row.borough f.borough r &&
  matchYear f.year r &&
  matchOpt Row.vehicle_type f.vehicle_type r &&
  matchOpt Row.contributing_factor f.contributing_factor r &&
  matchOpt Row.person_type f.person_type r &&
  matchOpt Row.person_injury f.injury_type r

/-! ### Generic grouping machinery

pandas `value_counts` and `groupby` in terms of lists: the distinct values in
first-encountered order, a stable insertion sort, and per-value counts. -/

/-- The distinct elements of a list, keeping the first occurrence of each
(the key order a pandas grouping encounters before any sorting). -/
def uniqueFirst {α : Type} [DecidableEq α] : List α → List α
  | [] => []
  | x :: xs => x :: uniqueFirst (xs.filter (fun y => y ≠ x))
termination_by l => l.length
decreasing_by
  exact Nat.lt_succ_of_le (List.length_filter_le _ xs)

/-- Insert `x` into `l` before the first element `y` with `le x y`; combined
with `sortLe` this is a stable insertion sort. -/
def insertLe {α : Type} (le : α → α → Bool) (x : α) : List α → List α
  | [] => [x]
  | y :: ys => if le x y then x :: y :: ys else y :: insertLe le x ys

/-- Stable insertion sort by the boolean relation `le`. -/
def sortLe {α : Type} (le : α → α → Bool) : List α → List α
  | [] => []
  | x :: xs => insertLe le x (sortLe le xs)

/-- Comparison used by `value_counts`: descending count, stable on ties. -/
def countGe (p q : String × Nat) : Bool := decide (q.2 ≤ p.2)

/-- pandas `Series.value_counts()` over the non-null cells of a column:
one entry per distinct value with its number of occurrences, sorted by
descending count, ties in first-encountered order. -/
def value_counts (xs : List String) : List (String × Nat) :=
  sortLe countGe ((uniqueFirst xs).map (fun v => (v, xs.count v)))

/-- Number of distinct `COLLISION_ID` values in a row set
(`filtered_df['COLLISION_ID'].nunique()`). -/
def distinctCollisions (rows : List Row) : Nat :=
  ((rows.map Row.collision_id).dedup).length

/-- `groupby(col)['COLLISION_ID'].nunique().to_dict()`: one entry per distinct
non-null value of the column, keys sorted ascending, each mapped to the
distinct-collision count of its group. -/
def groupNunique (get : Row → Option String) (rows : List Row) :
    List (String × Nat) :=
  (sortLe (fun a b => decide (a ≤ b)) (uniqueFirst (rows.filterMap get))).map
    (fun v => (v, distinctCollisions (rows.filter (fun r => get r == some v))))

/-! ### Time-based aggregates -/

/-- The month key `CRASH_DATE.dt.to_period('M')` of a row, `none` on `NaT`. -/
def rowMonth (r : Row) : Option (Int × Nat) :=
  r.crash_date.map (fun d => (d.year, d.month))

/-- Lexicographic order on (year, month) keys, as a boolean. -/
def ymLe (a b : Int × Nat) : Bool :=
  decide (a.1 < b.1) || (decide (a.1 = b.1) && decide (a.2 ≤ b.2))

/-- Left-pad the decimal rendering of a natural number with zeros. -/
def padNat (width n : Nat) : String :=
  let s := toString n
  String.mk (List.replicate (width - s.length) '0') ++ s

/-- `str(Period('M'))` of a month key: `YYYY-MM`, both components padded. -/
def monthLabel (ym : Int × Nat) : String :=
  (if ym.1 < 0 then "-" ++ padNat 4 ym.1.natAbs else padNat 4 ym.1.toNat) ++
    "-" ++ padNat 2 ym.2

/-- Distinct-collision count of the rows whose crash date falls in month `ym`
(a row with a null date falls in no month). -/
def monthCount (rows : List Row) (ym : Int × Nat) : Nat :=
  distinctCollisions (rows.filter (fun r => rowMonth r == some ym))

/-- The month keys present in a row set, ascending, one per distinct month. -/
def sortedMonths (rows : List Row) : List (Int × Nat) :=
  sortLe ymLe (uniqueFirst (rows.filterMap rowMonth))

/-- `by_month` (lines 372-373): rows grouped by the monthly truncation of
`CRASH_DATE` (null dates dropped by `groupby`), keys ascending, each month
labelled `YYYY-MM` and mapped to its distinct-collision count. -/
def byMonth (rows : List Row) : List (String × Nat) :=
  (sortedMonths rows).map (fun ym => (monthLabel ym, monthCount rows ym))

/-- `by_hour` (line 377): distinct-collision count per non-null hour,
keys ascending. -/
def byHour (rows : List Row) : List (Nat × Nat) :=
  (sortLe (fun a b => decide (a ≤ b)) (uniqueFirst (rows.filterMap Row.hour))).map
    (fun h => (h, distinctCollisions (rows.filter (fun r => r.hour == some h))))

/-- The weekday-name mapping of lines 385-386, with the `Day_<n>` fallback. -/
def dayName (d : Nat) : String :=
  match d with
  | 0 => "Monday"
  | 1 => "Tuesday"
  | 2 => "Wednesday"
  | 3 => "Thursday"
  | 4 => "Friday"
  | 5 => "Saturday"
  | 6 => "Sunday"
  | _ => "Day_" ++ toString d

/-- The (day, hour) key of a row when both cells are non-null. -/
def rowDayHour (r : Row) : Option (Nat × Nat) :=
  match r.day, r.hour with
  | some d, some h => some (d, h)
  | _, _ => none

/-- Append one heatmap cell under its day name, preserving insertion order of
day names (the nested-dictionary build of lines 391-396). -/
def addHeat (acc : List (String × List (Nat × Nat))) (nm : String)
    (h c : Nat) : List (String × List (Nat × Nat)) :=
  if acc.any (fun p => p.1 == nm) then
    acc.map (fun p => if p.1 == nm then (p.1, p.2 ++ [(h, c)]) else p)
  else
    acc ++ [(nm, [(h, c)])]

/-- `by_day_hour` turned into the nested heatmap structure: iterate the
groupby result (keys sorted ascending on (day, hour)) and bucket by day name. -/
def heatmapData (rows : List Row) : List (String × List (Nat × Nat)) :=
  (sortLe (fun a b => decide (a.1 < b.1) ||
      (decide (a.1 = b.1) && decide (a.2 ≤ b.2)))
    (uniqueFirst (rows.filterMap rowDayHour))).foldl
    (fun acc dh =>
      addHeat acc (dayName dh.1) dh.2
        (distinctCollisions
          (rows.filter (fun r => rowDayHour r == some dh))))
    []

/-! ### Safety statistics and the geographic sample -/

/-- The `{used, not_used}` distinct-person counts of lines 410-413. -/
structure SafetyStats where
  used : Nat
  not_used : Nat
deriving Repr, DecidableEq

/-- `filtered_df[filtered_df['SAFETY_USED'] == v]['PERSON_ID'].nunique()`. -/
def safetyCount (rows : List Row) (v : Nat) : Nat :=
  (((rows.filter (fun r => r.safety_used == some v)).map Row.person_id).dedup).length

/-- One record of the `geo_data` payload built at lines 451-471.  `BOROUGH` is
passed through from the row (a `NaN` cell stays `NaN`: the `'Unknown'` default
of `record.get` can only fire when the column itself is absent, and the
modelled schema carries every column).  `str()` of a `NaN` cell is the string
"nan".  `CRASH_DATE` is present only when the cell is non-null. -/
structure GeoRecord where
  latitude : ℚ
  longitude : ℚ
  borough : Option String
  vehicle_type : String
  injury_type : String
  hour : Option Nat
  crash_date : Option String
deriving Repr, DecidableEq

instance : Inhabited GeoRecord :=
  ⟨{ latitude := 0, longitude := 0, borough := none, vehicle_type := "",
     injury_type := "", hour := none, crash_date := none }⟩

/-- Python `str()` of a possibly-`NaN` string cell. -/
def pyStr (o : Option String) : String :=
  match o with
  | some s => s
  | none => "nan"

/-- `str(Timestamp)`: the date at midnight, as pandas renders it. -/
def tsToString (d : Date) : String :=
  (if d.year < 0 then "-" ++ padNat 4 d.year.natAbs else padNat 4 d.year.toNat)
    ++ "-" ++ padNat 2 d.month ++ "-" ++ padNat 2 d.day ++ " 00:00:00"

/-- The NYC bounding-box check of lines 435-436 and 450. -/
def inNYC (la lo : ℚ) : Bool :=
  decide (40.4 ≤ la) && decide (la ≤ 40.9) &&
    decide (-74.5 ≤ lo) && decide (lo ≤ -73.5)

/-- The per-record validation pass of lines 444-471: re-check the bounds and
assemble the emitted record; a row failing re-validation is dropped. -/
def mkGeoRecord (r : Row) : Option GeoRecord :=
  match r.latitude, r.longitude with
  | some la, some lo =>
    if inNYC la lo then
      some { latitude := la, longitude := lo, borough := r.borough,
             vehicle_type := pyStr r.vehicle_type,
             injury_type := pyStr r.person_injury,
             hour := r.hour,
             crash_date := r.crash_date.map tsToString }
    else none
  | _, _ => none

/-- The Geo Sampler (lines 427-477): drop rows with a null coordinate, keep
the NYC bounding box, take the first 500 rows, then re-validate and convert
each survivor. -/
def geoData (rows : List Row) : List GeoRecord :=
  let geo1 := rows.filter (fun r => r.latitude.isSome && r.longitude.isSome)
  if geo1.isEmpty then []
  else
    let geo2 := geo1.filter (fun r =>
      match r.latitude, r.longitude with
      | some la, some lo => inNYC la lo
      | _, _ => false)
    (geo2.take 500).filterMap mkGeoRecord

/-! ### The statistics bundle -/

/-- The JSON body returned by a successful `/api/stats` request. -/
structure StatsBundle where
  total_crashes : Nat
  total_persons : Nat
  total_injuries : Nat
  total_deaths : Nat
  by_borough : List (String × Nat)
  by_vehicle : List (String × Nat)
  by_factor : List (String × Nat)
  by_person_type : List (String × Nat)
  by_injury : List (String × Nat)
  by_month : List (String × Nat)
  by_hour : List (Nat × Nat)
  by_day_hour : List (String × List (Nat × Nat))
  by_season : List (String × Nat)
  safety_stats : SafetyStats
  geo_data : List GeoRecord
deriving Repr, DecidableEq

/-- The aggregate block of `get_stats` (lines 325-515), as a pure function of
the filtered row set. -/
def buildBundle (rows : List Row) : StatsBundle :=
  { total_crashes := distinctCollisions rows,
    total_persons := rows.length,
    total_injuries := (rows.map (fun r => r.persons_injured.getD 0)).sum,
    total_deaths := (rows.map (fun r => r.persons_killed.getD 0)).sum,
    by_borough := groupNunique Row.borough rows,
    by_vehicle := (value_counts (rows.filterMap Row.vehicle_type)).take 10,
    by_factor := (value_counts (rows.filterMap Row.contributing_factor)).take 10,
    by_person_type := value_counts (rows.filterMap Row.person_type),
    by_injury := value_counts (rows.filterMap Row.person_injury),
    by_month := byMonth rows,
    by_hour := byHour rows,
    by_day_hour := heatmapData rows,
    by_season := value_counts (rows.filterMap Row.season),
    safety_stats := { used := safetyCount rows 1, not_used := safetyCount rows 0 },
    geo_data := geoData rows }

/-- `get_stats` inside its `try`: filter, then aggregate.  The first raised
exception (a non-numeric year value) aborts the whole computation, so the
bundle is all-or-nothing. -/
def computeStats (f : FilterSpec) (df : List Row) : Except String StatsBundle :=
  match applyFilters f df with
  | .ok rows => .ok (buildBundle rows)
  | .error e => .error e

/-- The HTTP surface of `/api/stats`: 200 with the bundle, or the
`except` branch of lines 517-519, a 500 with the error message. -/
def statsEndpoint (f : FilterSpec) (df : List Row) :
    Nat × Except String StatsBundle :=
  match computeStats f df with
  | .ok b => (200, .ok b)
  | .error e => (500, .error e)

/-! ### The health endpoint -/

/-- The JSON body of a `/api/health` response; `none` fields are keys the
branch taken does not emit.  The static schema-introspection keys of the
success body (`columns`, `required_columns`) are constants of the fixed
modelled schema and are not repeated here. -/
structure HealthResp where
  status : String
  csv_file_exists : Bool
  data_loaded : Option Bool
  error : Option String
  total_records : Option Nat
  has_geo_data : Option Bool
  geo_data_count : Option Nat
deriving Repr, DecidableEq

/-- `df[['LATITUDE','LONGITUDE']].dropna()` of the health check. -/
def geoCheck (rows : List Row) : List Row :=
  rows.filter (fun r => r.latitude.isSome && r.longitude.isSome)

/-- `health_check` (lines 198-242).  Inputs: whether the CSV file exists,
the current cache (`_df_cache`), and what `get_dataframe()` would produce if
called (`.error` for a raised load exception).  Output: HTTP status, response
body (`none` = an uncaught exception, rendered by Flask as a bare 500), and
the cache after the call.  Note `not _df_cache` on a cached dataframe raises
(`pandas` truthiness of a DataFrame is ambiguous), so only the `none`-cache
paths run the handler body. -/
def health_check (csvExists : Bool) (cache : Option (List Row))
    (load : Except String (List Row)) :
    Nat × Option HealthResp × Option (List Row) :=
  match cache with
  | some _ => (500, none, cache)
  | none =>
    if csvExists then
      match load with
      | .error e =>
        (500, some { status := "unhealthy", csv_file_exists := csvExists,
                     data_loaded := none,
                     error := some ("Failed to load data: " ++ e),
                     total_records := none, has_geo_data := none,
                     geo_data_count := none }, none)
      | .ok d =>
        (200, some { status := "healthy", csv_file_exists := csvExists,
                     data_loaded := some true, error := none,
                     total_records := some d.length,
                     has_geo_data := some (0 < (geoCheck d).length),
                     geo_data_count := some (geoCheck d).length }, some d)
    else
      (200, some { status := "healthy", csv_file_exists := csvExists,
                   data_loaded := some false, error := none,
                   total_records := none, has_geo_data := none,
                   geo_data_count := none }, none)

/-! ### Filter keys, claim-level predicates and concrete demo data -/

/-- The six filter dimensions of a Filter Specification. -/
inductive FilterKey
  | borough
  | year
  | vehicle_type
  | contributing_factor
  | person_type
  | injury_type
deriving Repr, DecidableEq

/-- Read the value bound to one filter key. -/
def getKey (f : FilterSpec) : FilterKey → Option String
  | .borough => f.borough
  | .year => f.year
  | .vehicle_type => f.vehicle_type
  | .contributing_factor => f.contributing_factor
  | .person_type => f.person_type
  | .injury_type => f.injury_type

/-- Rebind one filter key, leaving the other five dimensions unchanged. -/
def setKey (f : FilterSpec) (k : FilterKey) (v : Option String) : FilterSpec :=
  match k with
  | .borough => { f with borough := v }
  | .year => { f with year := v }
  | .vehicle_type => { f with vehicle_type := v }
  | .contributing_factor => { f with contributing_factor := v }
  | .person_type => { f with person_type := v }
  | .injury_type => { f with injury_type := v }

/-- What it means for `out` to be a top-10 frequency table of the multiset of
values `col`: at most ten entries, counts non-increasing in list order, every
entry a value of `col` with its exact occurrence count, and no omitted value
more frequent than any listed entry. -/
def TopTenOf (out : List (String × Nat)) (col : List String) : Prop :=
  out.length ≤ 10 ∧
  out.Pairwise (fun p q => q.2 ≤ p.2) ∧
  (∀ p ∈ out, p.1 ∈ col ∧ p.2 = col.count p.1) ∧
  (∀ v ∈ col, (∀ p ∈ out, p.1 ≠ v) → ∀ p ∈ out, col.count v ≤ p.2)

/-- A demo row builder for concrete instantiations of the theorems. -/
def demoRow (cid : Nat) (d : Option Date) (b : Option String) (pid : Nat)
    (pt : Option String) (la lo : Option ℚ) : Row :=
  { collision_id := cid, crash_date := d, borough := b,
    vehicle_type := some "Sedan", contributing_factor := some "Speeding",
    person_type := pt, person_injury := some "Unspecified",
    latitude := la, longitude := lo,
    hour := some 9, day := some 2, season := some "Winter",
    person_id := pid, safety_used := some 1,
    persons_injured := some 1, persons_killed := some 0 }

/-- The spec's demo dataset: collision 1 with two person-rows in BROOKLYN in
2022, collision 2 with one person-row in QUEENS in 2021. -/
def dfDemo : List Row :=
  [ demoRow 1 (some ⟨2022, 3, 15⟩) (some "BROOKLYN") 200 (some "Occupant")
      (some 40.7) (some (-74.0)),
    demoRow 1 (some ⟨2022, 3, 15⟩) (some "BROOKLYN") 201 (some "Pedestrian")
      (some 40.7) (some (-74.0)),
    demoRow 2 (some ⟨2021, 7, 1⟩) (some "QUEENS") 202 (some "Occupant")
      (some 40.6) (some (-73.9)) ]

/-- The demo dataset plus one person-row whose latitude 41.5 lies outside the
NYC bounding box. -/
def dfDemoGeo : List Row :=
  dfDemo ++ [demoRow 3 (some ⟨2021, 8, 2⟩) (some "BRONX") 203 (some "Occupant")
    (some 41.5) (some (-73.9))]

/-- One row with valid coordinates but an absent (`NaN`) borough. -/
def rowNoBorough : Row :=
  demoRow 7 (some ⟨2020, 5, 2⟩) none 70 (some "Occupant")
    (some 40.5) (some (-74.0))

/-- A single-row dataset whose only borough cell is absent. -/
def dfNoBorough : List Row := [rowNoBorough]

/-- The bundle a successful `computeStats` call returns, with an inert
fallback on the error branch, used to instantiate theorems concretely. -/
def bundleOf (f : FilterSpec) (df : List Row) : StatsBundle :=
  match computeStats f df with
  | .ok b => b
  | .error _ => buildBundle []

/-! ### Lemmas about the generic machinery -/

theorem insertLe_perm {α : Type} (le : α → α → Bool) (x : α) (l : List α) :
    (insertLe le x l).Perm (x :: l) := by
  induction l with
  | nil => exact List.Perm.refl _
  | cons y ys ih =>
    rw [insertLe]
    by_cases h : le x y
    · rw [if_pos h]
    · rw [if_neg h]
      exact List.Perm.trans (List.Perm.cons y ih) (List.Perm.swap x y ys)

theorem sortLe_perm {α : Type} (le : α → α → Bool) (l : List α) :
    (sortLe le l).Perm l := by
  induction l with
  | nil => exact List.Perm.refl _
  | cons x xs ih =>
    rw [sortLe]
    exact List.Perm.trans (insertLe_perm le x (sortLe le xs)) (List.Perm.cons x ih)

theorem mem_insertLe {α : Type} (le : α → α → Bool) (x a : α) (l : List α) :
    a ∈ insertLe le x l ↔ a = x ∨ a ∈ l := by
  rw [(insertLe_perm le x l).mem_iff, List.mem_cons]

theorem pairwise_insertLe {α : Type} (le : α → α → Bool)
    (htr : ∀ a b c, le a b = true → le b c = true → le a c = true)
    (hto : ∀ a b, le a b = false → le b a = true)
    (x : α) (l : List α) (h : l.Pairwise (fun a b => le a b = true)) :
    (insertLe le x l).Pairwise (fun a b => le a b = true) := by
  induction l with
  | nil => simp [insertLe]
  | cons y ys ih =>
    rw [insertLe]
    rw [List.pairwise_cons] at h
    by_cases hxy : le x y
    · rw [if_pos hxy, List.pairwise_cons]
      refine ⟨?_, List.pairwise_cons.2 h⟩
      intro b hb
      rcases List.mem_cons.1 hb with rfl | hb
      · exact hxy
      · exact htr x y b hxy (h.1 b hb)
    · rw [if_neg hxy, List.pairwise_cons]
      refine ⟨?_, ih h.2⟩
      intro b hb
      rcases (mem_insertLe le x b ys).1 hb with hbx | hb
      · subst hbx; exact hto b y (Bool.eq_false_iff.mpr hxy)
      · exact h.1 b hb

theorem pairwise_sortLe {α : Type} (le : α → α → Bool)
    (htr : ∀ a b c, le a b = true → le b c = true → le a c = true)
    (hto : ∀ a b, le a b = false → le b a = true)
    (l : List α) : (sortLe le l).Pairwise (fun a b => le a b = true) := by
  induction l with
  | nil => simp [sortLe]
  | cons x xs ih => exact pairwise_insertLe le htr hto x (sortLe le xs) ih

theorem mem_uniqueFirst {α : Type} [DecidableEq α] (l : List α) (a : α) :
    a ∈ uniqueFirst l ↔ a ∈ l := by
  induction l using uniqueFirst.induct with
  | case1 => simp [uniqueFirst]
  | case2 x xs ih =>
    rw [uniqueFirst]
    by_cases hax : a = x
    · subst hax; simp
    · simp only [List.mem_cons, ih, List.mem_filter]
      constructor
      · rintro (rfl | ⟨h, _⟩)
        · exact Or.inl rfl
        · exact Or.inr h
      · rintro (rfl | h)
        · exact Or.inl rfl
        · exact Or.inr ⟨h, by simpa using hax⟩

theorem nodup_uniqueFirst {α : Type} [DecidableEq α] (l : List α) :
    (uniqueFirst l).Nodup := by
  induction l using uniqueFirst.induct with
  | case1 => simp [uniqueFirst]
  | case2 x xs ih =>
    rw [uniqueFirst, List.nodup_cons]
    refine ⟨?_, ih⟩
    intro hx
    have := (mem_uniqueFirst _ x).1 hx
    simp [List.mem_filter] at this

/-- The number of distinct values of a mapped list, as a finset cardinality. -/
theorem dedup_length_eq_card {α : Type} [DecidableEq α] (l : List α) :
    l.dedup.length = l.toFinset.card :=
  (List.card_toFinset l).symm

theorem distinctCollisions_le_length (rows : List Row) :
    distinctCollisions rows ≤ rows.length := by
  calc ((rows.map Row.collision_id).dedup).length
      ≤ (rows.map Row.collision_id).length :=
        (List.dedup_sublist _).length_le
    _ = rows.length := List.length_map _ _

theorem distinctCollisions_mono {l1 l2 : List Row} (h : l1.Sublist l2) :
    distinctCollisions l1 ≤ distinctCollisions l2 := by
  unfold distinctCollisions
  rw [dedup_length_eq_card, dedup_length_eq_card]
  apply Finset.card_le_card
  intro a ha
  rw [List.mem_toFinset] at *
  exact (List.Sublist.map Row.collision_id h).subset ha

/-! ### The filtered row set as a single predicate -/

theorem filterEq_eq (get : Row → Option String) (o : Option String)
    (l : List Row) : filterEq get o l = l.filter (matchOpt get o) := by
  unfold filterEq matchOpt
  cases activeVal o with
  | none => simp
  | some v => rfl

theorem filterYear_ok {o : Option String} {l rows : List Row}
    (h : filterYear o l = .ok rows) : rows = l.filter (matchYear o) := by
  unfold filterYear at h
  unfold matchYear
  split at h
  next s heq =>
    split at h
    next y hp => cases h; rfl
    next => cases h
  next heq =>
    cases h
    simp

theorem applyFilters_ok {f : FilterSpec} {df rows : List Row}
    (h : applyFilters f df = .ok rows) :
    rows = df.filter (matchesSpec f) := by
  unfold applyFilters at h
  split at h
  next => cases h
  next d1 hy =>
    cases h
    rw [filterYear_ok hy, filterEq_eq, filterEq_eq, filterEq_eq, filterEq_eq,
      filterEq_eq, List.filter_filter, List.filter_filter, List.filter_filter,
      List.filter_filter, List.filter_filter]
    apply List.filter_congr
    intro r _
    unfold matchesSpec
    cases matchOpt Row.borough f.borough r <;>
      cases matchYear f.year r <;>
      cases matchOpt Row.vehicle_type f.vehicle_type r <;>
      cases matchOpt Row.contributing_factor f.contributing_factor r <;>
      cases matchOpt Row.person_type f.person_type r <;>
      cases matchOpt Row.person_injury f.injury_type r <;> rfl

theorem computeStats_ok {f : FilterSpec} {df : List Row} {b : StatsBundle}
    (h : computeStats f df = .ok b) :
    b = buildBundle (df.filter (matchesSpec f)) := by
  unfold computeStats at h
  cases ha : applyFilters f df with
  | error e => rw [ha] at h; cases h
  | ok rows =>
    rw [ha] at h
    cases h
    rw [applyFilters_ok ha]

/-! ### Congruence and monotonicity of the filter pass -/

theorem matchOpt_none (get : Row → Option String) {o : Option String}
    (h : activeVal o = none) (r : Row) : matchOpt get o r = true := by
  unfold matchOpt
  rw [h]

theorem matchYear_none {o : Option String} (h : activeVal o = none) (r : Row) :
    matchYear o r = true := by
  unfold matchYear
  rw [h]

/-- `computeStats` reads a filter key only through its active value. -/
theorem computeStats_congr (f g : FilterSpec) (df : List Row)
    (hb : activeVal f.borough = activeVal g.borough)
    (hy : activeVal f.year = activeVal g.year)
    (hv : activeVal f.vehicle_type = activeVal g.vehicle_type)
    (hc : activeVal f.contributing_factor = activeVal g.contributing_factor)
    (hp : activeVal f.person_type = activeVal g.person_type)
    (hi : activeVal f.injury_type = activeVal g.injury_type) :
    computeStats f df = computeStats g df := by
  unfold computeStats applyFilters filterYear filterEq
  rw [hb, hy, hv, hc, hp, hi]

/-- Adding a constraint on a previously unconstrained key only strengthens
the row predicate. -/
theorem matches_setKey_imp (f : FilterSpec) (k : FilterKey) (v : String)
    (hk : activeVal (getKey f k) = none) (r : Row)
    (h : matchesSpec (setKey f k (some v)) r = true) :
    matchesSpec f r = true := by
  cases k with
  | borough =>
    simp only [matchesSpec, setKey, Bool.and_eq_true] at h ⊢
    exact ⟨⟨⟨⟨⟨matchOpt_none _ hk r, h.1.1.1.1.2⟩, h.1.1.1.2⟩, h.1.1.2⟩,
      h.1.2⟩, h.2⟩
  | year =>
    simp only [matchesSpec, setKey, Bool.and_eq_true] at h ⊢
    exact ⟨⟨⟨⟨⟨h.1.1.1.1.1, matchYear_none hk r⟩, h.1.1.1.2⟩, h.1.1.2⟩,
      h.1.2⟩, h.2⟩
  | vehicle_type =>
    simp only [matchesSpec, setKey, Bool.and_eq_true] at h ⊢
    exact ⟨⟨⟨⟨⟨h.1.1.1.1.1, h.1.1.1.1.2⟩, matchOpt_none _ hk r⟩, h.1.1.2⟩,
      h.1.2⟩, h.2⟩
  | contributing_factor =>
    simp only [matchesSpec, setKey, Bool.and_eq_true] at h ⊢
    exact ⟨⟨⟨⟨⟨h.1.1.1.1.1, h.1.1.1.1.2⟩, h.1.1.1.2⟩, matchOpt_none _ hk r⟩,
      h.1.2⟩, h.2⟩
  | person_type =>
    simp only [matchesSpec, setKey, Bool.and_eq_true] at h ⊢
    exact ⟨⟨⟨⟨⟨h.1.1.1.1.1, h.1.1.1.1.2⟩, h.1.1.1.2⟩, h.1.1.2⟩,
      matchOpt_none _ hk r⟩, h.2⟩
  | injury_type =>
    simp only [matchesSpec, setKey, Bool.and_eq_true] at h ⊢
    exact ⟨⟨⟨⟨⟨h.1.1.1.1.1, h.1.1.1.1.2⟩, h.1.1.1.2⟩, h.1.1.2⟩,
      h.1.2⟩, matchOpt_none _ hk r⟩

/-! ### Lemmas about the Geo Sampler -/

theorem geoData_length_le (rows : List Row) : (geoData rows).length ≤ 500 := by
  unfold geoData
  dsimp only
  split
  · simp
  · calc (List.filterMap mkGeoRecord _).length
        ≤ (List.take 500 _).length := List.length_filterMap_le _ _
      _ ≤ 500 := by rw [List.length_take]; exact min_le_left _ _

theorem mem_geoData {rows : List Row} {g : GeoRecord} (h : g ∈ geoData rows) :
    ∃ r ∈ rows, mkGeoRecord r = some g := by
  unfold geoData at h
  dsimp only at h
  split at h
  · simp at h
  · rcases List.mem_filterMap.1 h with ⟨r, hr, hmk⟩
    refine ⟨r, ?_, hmk⟩
    have h1 := (List.take_sublist 500 _).subset hr
    have h2 := (List.filter_sublist _).subset h1
    exact (List.filter_sublist _).subset h2

theorem mkGeoRecord_spec {r : Row} {g : GeoRecord}
    (h : mkGeoRecord r = some g) :
    ((40.4 : ℚ) ≤ g.latitude ∧ g.latitude ≤ 40.9 ∧
      (-74.5 : ℚ) ≤ g.longitude ∧ g.longitude ≤ -73.5) ∧
    g.borough = r.borough ∧
    g.vehicle_type = pyStr r.vehicle_type ∧
    g.injury_type = pyStr r.person_injury ∧
    g.hour = r.hour ∧
    g.crash_date = r.crash_date.map tsToString := by
  unfold mkGeoRecord at h
  split at h
  next la lo hla hlo =>
    split at h
    next hnyc =>
      cases h
      simp only [inNYC, Bool.and_eq_true, decide_eq_true_eq] at hnyc
      exact ⟨⟨hnyc.1.1.1, hnyc.1.1.2, hnyc.1.2, hnyc.2⟩, rfl, rfl, rfl, rfl, rfl⟩
    next => cases h
  next => cases h

/-! ### Lemmas about value counts -/

theorem countGe_trans (a b c : String × Nat) (h1 : countGe a b = true)
    (h2 : countGe b c = true) : countGe a c = true := by
  unfold countGe at *
  exact decide_eq_true (le_trans (of_decide_eq_true h2) (of_decide_eq_true h1))

theorem countGe_total (a b : String × Nat) (h : countGe a b = false) :
    countGe b a = true := by
  unfold countGe at *
  have : ¬ (b.2 ≤ a.2) := by simpa using h
  exact decide_eq_true (le_of_lt (lt_of_not_le this))

theorem value_counts_pairwise (xs : List String) :
    (value_counts xs).Pairwise (fun p q => q.2 ≤ p.2) := by
  have h := pairwise_sortLe countGe countGe_trans countGe_total
    ((uniqueFirst xs).map (fun v => (v, xs.count v)))
  exact h.imp (fun hab => of_decide_eq_true hab)

theorem mem_value_counts {xs : List String} {p : String × Nat}
    (h : p ∈ value_counts xs) : p.1 ∈ xs ∧ p.2 = xs.count p.1 := by
  have hp := (sortLe_perm countGe _).mem_iff.1 h
  rcases List.mem_map.1 hp with ⟨v, hv, rfl⟩
  exact ⟨(mem_uniqueFirst xs v).1 hv, rfl⟩

theorem value_counts_complete {xs : List String} {v : String} (h : v ∈ xs) :
    (v, xs.count v) ∈ value_counts xs := by
  apply (sortLe_perm countGe _).mem_iff.2
  exact List.mem_map.2 ⟨v, (mem_uniqueFirst xs v).2 h, rfl⟩

/-- `value_counts(col).head(10)` is a top-10 frequency table of `col`. -/
theorem topTen_spec (xs : List String) :
    TopTenOf ((value_counts xs).take 10) xs := by
  refine ⟨?_, ?_, ?_, ?_⟩
  · rw [List.length_take]; exact min_le_left _ _
  · exact (value_counts_pairwise xs).sublist (List.take_sublist _ _)
  · intro p hp
    exact mem_value_counts ((List.take_sublist _ _).subset hp)
  · intro v hv hnot p hp
    have hvc := value_counts_complete hv
    have hsplit := (List.take_append_drop 10 (value_counts xs)).symm
    rw [hsplit] at hvc
    rcases List.mem_append.1 hvc with hin | hdrop
    · exact absurd rfl (hnot _ hin)
    · have hpw := value_counts_pairwise xs
      rw [hsplit] at hpw
      exact (List.pairwise_append.1 hpw).2.2 p hp (v, xs.count v) hdrop

/-! ### Lemmas about the month grouping -/

theorem ymLe_trans (a b c : Int × Nat) (h1 : ymLe a b = true)
    (h2 : ymLe b c = true) : ymLe a c = true := by
  unfold ymLe at *
  simp only [Bool.or_eq_true, Bool.and_eq_true, decide_eq_true_eq] at *
  rcases h1 with h1 | ⟨h1e, h1m⟩ <;> rcases h2 with h2 | ⟨h2e, h2m⟩
  · exact Or.inl (lt_trans h1 h2)
  · exact Or.inl (h2e ▸ h1)
  · exact Or.inl (h1e ▸ h2)
  · exact Or.inr ⟨h1e.trans h2e, le_trans h1m h2m⟩

theorem ymLe_total (a b : Int × Nat) (h : ymLe a b = false) :
    ymLe b a = true := by
  unfold ymLe at *
  simp only [Bool.or_eq_false_iff, Bool.and_eq_false_iff, Bool.or_eq_true,
    Bool.and_eq_true, decide_eq_true_eq, decide_eq_false_iff_not] at *
  rcases lt_trichotomy a.1 b.1 with hlt | heq | hgt
  · exact absurd hlt h.1
  · rcases h.2 with hne | hm
    · exact absurd heq hne
    · exact Or.inr ⟨heq.symm, le_of_lt (lt_of_not_le hm)⟩
  · exact Or.inl hgt

theorem mem_sortedMonths (rows : List Row) (ym : Int × Nat) :
    ym ∈ sortedMonths rows ↔ ym ∈ rows.filterMap rowMonth := by
  unfold sortedMonths
  rw [(sortLe_perm ymLe _).mem_iff, mem_uniqueFirst]

theorem sortedMonths_pairwise (rows : List Row) :
    (sortedMonths rows).Pairwise
      (fun a b => a.1 < b.1 ∨ (a.1 = b.1 ∧ a.2 < b.2)) := by
  have hle := pairwise_sortLe ymLe ymLe_trans ymLe_total
    (uniqueFirst (rows.filterMap rowMonth))
  have hnd : (sortedMonths rows).Nodup :=
    (sortLe_perm ymLe _).nodup_iff.2 (nodup_uniqueFirst _)
  have hboth := hle.and hnd
  refine hboth.imp ?_
  intro a b hab
  obtain ⟨hab, hne⟩ := hab
  unfold ymLe at hab
  simp only [Bool.or_eq_true, Bool.and_eq_true, decide_eq_true_eq] at hab
  rcases hab with h | ⟨he, hm⟩
  · exact Or.inl h
  · refine Or.inr ⟨he, lt_of_le_of_ne hm ?_⟩
    intro hmm
    exact hne (Prod.ext he hmm)

/-! ### The claims -/

/-- Claim C1: for every Filter Specification and dataset, a successful
`computeStats` call returns `total_persons` equal to the number of rows
matching all constraints of the specification, `total_crashes` equal to the
number of distinct `collision_id` values among those rows, and
`total_crashes ≤ total_persons`. -/
theorem claim1_totals (f : FilterSpec) (df : List Row) (b : StatsBundle)
    (h : computeStats f df = .ok b) :
    b.total_persons = (df.filter (matchesSpec f)).length ∧
    b.total_crashes =
      ((df.filter (matchesSpec f)).map Row.collision_id).dedup.length ∧
    b.total_crashes ≤ b.total_persons := by
  have hb := computeStats_ok h
  subst hb
  exact ⟨rfl, rfl, distinctCollisions_le_length _⟩

/-- Concrete instantiation of `claim1_totals` on the demo dataset. -/
theorem claim1_totals_witness :
    (bundleOf specEmpty dfDemo).total_persons =
      (dfDemo.filter (matchesSpec specEmpty)).length ∧
    (bundleOf specEmpty dfDemo).total_crashes =
      ((dfDemo.filter (matchesSpec specEmpty)).map Row.collision_id).dedup.length ∧
    (bundleOf specEmpty dfDemo).total_crashes ≤
      (bundleOf specEmpty dfDemo).total_persons :=
  claim1_totals specEmpty dfDemo (bundleOf specEmpty dfDemo)
    (by with_unfolding_all rfl)

/-- Claim C2: adding one more constraint (binding a previously unconstrained
filter key) never increases `total_crashes` or `total_persons`: the
conjunctive filtering is monotone. -/
theorem claim2_monotone (f : FilterSpec) (k : FilterKey) (v : String)
    (df : List Row) (b b' : StatsBundle)
    (hk : activeVal (getKey f k) = none)
    (h : computeStats f df = .ok b)
    (h' : computeStats (setKey f k (some v)) df = .ok b') :
    b'.total_crashes ≤ b.total_crashes ∧
    b'.total_persons ≤ b.total_persons := by
  have hb := computeStats_ok h
  have hb' := computeStats_ok h'
  subst hb
  subst hb'
  have hsub : (df.filter (matchesSpec (setKey f k (some v)))).Sublist
      (df.filter (matchesSpec f)) :=
    List.monotone_filter_right df (fun r hr => matches_setKey_imp f k v hk r hr)
  exact ⟨distinctCollisions_mono hsub, hsub.length_le⟩

/-- Concrete instantiation of `claim2_monotone`: constraining the demo
dataset to BROOKLYN. -/
theorem claim2_monotone_witness :
    (bundleOf (setKey specEmpty .borough (some "BROOKLYN")) dfDemo).total_crashes ≤
      (bundleOf specEmpty dfDemo).total_crashes ∧
    (bundleOf (setKey specEmpty .borough (some "BROOKLYN")) dfDemo).total_persons ≤
      (bundleOf specEmpty dfDemo).total_persons :=
  claim2_monotone specEmpty .borough "BROOKLYN" dfDemo
    (bundleOf specEmpty dfDemo)
    (bundleOf (setKey specEmpty .borough (some "BROOKLYN")) dfDemo)
    rfl (by with_unfolding_all rfl) (by with_unfolding_all rfl)

/-- Claim C3: `by_vehicle` and `by_factor` are top-10 frequency tables of the
vehicle-type / contributing-factor columns of the filtered row set: at most
ten entries, exact per-value counts, counts non-increasing in list order, and
no omitted value more frequent than any listed one. -/
theorem claim3_top10 (f : FilterSpec) (df : List Row) (b : StatsBundle)
    (h : computeStats f df = .ok b) :
    TopTenOf b.by_vehicle
      ((df.filter (matchesSpec f)).filterMap Row.vehicle_type) ∧
    TopTenOf b.by_factor
      ((df.filter (matchesSpec f)).filterMap Row.contributing_factor) := by
  have hb := computeStats_ok h
  subst hb
  exact ⟨topTen_spec _, topTen_spec _⟩

/-- Concrete instantiation of `claim3_top10` on the demo dataset. -/
theorem claim3_top10_witness :
    TopTenOf (bundleOf specEmpty dfDemo).by_vehicle
      ((dfDemo.filter (matchesSpec specEmpty)).filterMap Row.vehicle_type) ∧
    TopTenOf (bundleOf specEmpty dfDemo).by_factor
      ((dfDemo.filter (matchesSpec specEmpty)).filterMap Row.contributing_factor) :=
  claim3_top10 specEmpty dfDemo (bundleOf specEmpty dfDemo)
    (by with_unfolding_all rfl)

/-- Claim C4: a present, truthy, non-"All" year value that does not parse as
an integer makes the whole request fail: `/api/stats` answers 500 carrying
the `ValueError` message, and no partial bundle is produced (the result is
either a whole bundle or an error, never both). -/
theorem claim4_invalid_year (f : FilterSpec) (df : List Row) (s : String)
    (hy : f.year = some s) (h1 : s ≠ "") (h2 : s ≠ "All")
    (hp : pyInt s = none) :
    statsEndpoint f df =
      (500, .error ("invalid literal for int() with base 10: " ++ s)) := by
  have hav : activeVal f.year = some s := by
    rw [hy]
    simp [activeVal, h1, h2]
  unfold statsEndpoint computeStats applyFilters filterYear
  simp only [hav, hp]

/-- Concrete instantiation of `claim4_invalid_year`: year "abc". -/
theorem claim4_invalid_year_witness :
    statsEndpoint { specEmpty with year := some "abc" } dfDemo =
      (500, .error ("invalid literal for int() with base 10: " ++ "abc")) :=
  claim4_invalid_year { specEmpty with year := some "abc" } dfDemo "abc"
    rfl (by decide) (by decide) (by with_unfolding_all decide)

/-- Claim C5: the geographic sample of a successful `computeStats` call is a
list (by construction never null) of at most 500 records, every emitted
record lies inside the NYC bounding box, and `total_persons` still counts
every filtered row — rows with out-of-box coordinates are excluded from
`geo_data` only. -/
theorem claim5_geo (f : FilterSpec) (df : List Row) (b : StatsBundle)
    (h : computeStats f df = .ok b) :
    b.geo_data.length ≤ 500 ∧
    (∀ g ∈ b.geo_data,
      (40.4 : ℚ) ≤ g.latitude ∧ g.latitude ≤ 40.9 ∧
      (-74.5 : ℚ) ≤ g.longitude ∧ g.longitude ≤ -73.5) ∧
    b.total_persons = (df.filter (matchesSpec f)).length := by
  have hb := computeStats_ok h
  subst hb
  refine ⟨geoData_length_le _, ?_, rfl⟩
  intro g hg
  rcases mem_geoData hg with ⟨r, _, hmk⟩
  exact (mkGeoRecord_spec hmk).1

/-- Concrete instantiation of `claim5_geo` on the demo dataset extended with
a row at latitude 41.5, outside the bounding box. -/
theorem claim5_geo_witness :
    (bundleOf specEmpty dfDemoGeo).geo_data.length ≤ 500 ∧
    (∀ g ∈ (bundleOf specEmpty dfDemoGeo).geo_data,
      (40.4 : ℚ) ≤ g.latitude ∧ g.latitude ≤ 40.9 ∧
      (-74.5 : ℚ) ≤ g.longitude ∧ g.longitude ≤ -73.5) ∧
    (bundleOf specEmpty dfDemoGeo).total_persons =
      (dfDemoGeo.filter (matchesSpec specEmpty)).length :=
  claim5_geo specEmpty dfDemoGeo (bundleOf specEmpty dfDemoGeo)
    (by with_unfolding_all rfl)

/-- Claim C6: a Filter Specification with every key bound to the sentinel
"All" produces, on any dataset, exactly the same statistics bundle as the
empty specification. -/
theorem claim6_all_sentinel (df : List Row) :
    computeStats specAll df = computeStats specEmpty df :=
  computeStats_congr specAll specEmpty df rfl rfl rfl rfl rfl rfl

/-- Claim C7: `by_month` has one entry per calendar month occurring among the
filtered rows with a non-null timestamp (a row with a null timestamp
contributes to no entry: `rowMonth` is `none` there, so it is dropped both
from the key list and from every month's count), labelled `YYYY-MM` by
`monthLabel`, mapped to the distinct-collision count of that month, and
listed in strictly ascending month order. -/
theorem claim7_by_month (f : FilterSpec) (df : List Row) (b : StatsBundle)
    (h : computeStats f df = .ok b) :
    ∃ ms : List (Int × Nat),
      b.by_month = ms.map (fun ym =>
        (monthLabel ym, monthCount (df.filter (matchesSpec f)) ym)) ∧
      (∀ ym, ym ∈ ms ↔ ym ∈ (df.filter (matchesSpec f)).filterMap rowMonth) ∧
      ms.Pairwise (fun a b => a.1 < b.1 ∨ (a.1 = b.1 ∧ a.2 < b.2)) := by
  have hb := computeStats_ok h
  subst hb
  exact ⟨sortedMonths (df.filter (matchesSpec f)), rfl,
    fun ym => mem_sortedMonths _ ym, sortedMonths_pairwise _⟩

/-- Concrete instantiation of `claim7_by_month` on the demo dataset. -/
theorem claim7_by_month_witness :
    ∃ ms : List (Int × Nat),
      (bundleOf specEmpty dfDemo).by_month = ms.map (fun ym =>
        (monthLabel ym, monthCount (dfDemo.filter (matchesSpec specEmpty)) ym)) ∧
      (∀ ym, ym ∈ ms ↔
        ym ∈ (dfDemo.filter (matchesSpec specEmpty)).filterMap rowMonth) ∧
      ms.Pairwise (fun a b => a.1 < b.1 ∨ (a.1 = b.1 ∧ a.2 < b.2)) :=
  claim7_by_month specEmpty dfDemo (bundleOf specEmpty dfDemo)
    (by with_unfolding_all rfl)

/-- Claim C8 (amended): when the dataset is not yet loaded and the CSV file
exists, `/api/health` triggers the lazy load, answers 500 with an error body
when the load raises, and on success answers 200 reporting
`data_loaded = true` and the total record count.  (The un-amended claim —
that the load is triggered whenever the dataset is not loaded — fails when
the CSV file is absent; see the counterexample.) -/
theorem claim8_health (d : List Row) (e : String) :
    health_check true none (.error e) =
      (500, some { status := "unhealthy", csv_file_exists := true,
                   data_loaded := none,
                   error := some ("Failed to load data: " ++ e),
                   total_records := none, has_geo_data := none,
                   geo_data_count := none }, none) ∧
    health_check true none (.ok d) =
      (200, some { status := "healthy", csv_file_exists := true,
                   data_loaded := some true, error := none,
                   total_records := some d.length,
                   has_geo_data := some (0 < (geoCheck d).length),
                   geo_data_count := some (geoCheck d).length }, some d) :=
  ⟨rfl, rfl⟩

/-- Claim C8 counterexample: with the dataset not yet loaded but the CSV file
absent, `/api/health` performs no load at all (the cache stays empty even
though a load would have succeeded) and answers 200 with
`data_loaded = false` — the claim's unconditional "triggers the lazy load"
is false. -/
theorem claim8_counterexample :
    health_check false none (.ok dfDemo) =
      (200, some { status := "healthy", csv_file_exists := false,
                   data_loaded := some false, error := none,
                   total_records := none, has_geo_data := none,
                   geo_data_count := none }, none) := rfl

/-- Claim C9 (amended): every emitted geo record carries the source row's
borough verbatim — `none` (pandas `NaN`) when the row's borough is absent;
the "Unknown" default of `record.get` could only fire if the BOROUGH column
itself were missing from the dataset — together with the stringified vehicle
type and injury status ("nan" for an absent cell), the hour of day, and the
stringified timestamp exactly when the row's timestamp is non-null. -/
theorem claim9_geo_fields (f : FilterSpec) (df : List Row) (b : StatsBundle)
    (h : computeStats f df = .ok b) :
    ∀ g ∈ b.geo_data, ∃ r ∈ df.filter (matchesSpec f),
      g.borough = r.borough ∧
      g.vehicle_type = pyStr r.vehicle_type ∧
      g.injury_type = pyStr r.person_injury ∧
      g.hour = r.hour ∧
      g.crash_date = r.crash_date.map tsToString := by
  have hb := computeStats_ok h
  subst hb
  intro g hg
  rcases mem_geoData hg with ⟨r, hr, hmk⟩
  exact ⟨r, hr, (mkGeoRecord_spec hmk).2⟩

/-- Concrete instantiation of `claim9_geo_fields`: the first geo record the
demo dataset emits. -/
theorem claim9_geo_fields_witness :
    ∃ r ∈ dfDemo.filter (matchesSpec specEmpty),
      ((bundleOf specEmpty dfDemo).geo_data.headI).borough = r.borough ∧
      ((bundleOf specEmpty dfDemo).geo_data.headI).vehicle_type =
        pyStr r.vehicle_type ∧
      ((bundleOf specEmpty dfDemo).geo_data.headI).injury_type =
        pyStr r.person_injury ∧
      ((bundleOf specEmpty dfDemo).geo_data.headI).hour = r.hour ∧
      ((bundleOf specEmpty dfDemo).geo_data.headI).crash_date =
        r.crash_date.map tsToString :=
  claim9_geo_fields specEmpty dfDemo (bundleOf specEmpty dfDemo)
    (by with_unfolding_all rfl)
    ((bundleOf specEmpty dfDemo).geo_data.headI)
    (by with_unfolding_all decide)

/-- Claim C9 counterexample: on a dataset whose single row has in-box
coordinates but an absent borough cell, the emitted geo record's borough is
the null value, not the string "Unknown" the claim requires. -/
theorem claim9_counterexample :
    rowNoBorough.borough = none ∧
    (match computeStats specEmpty dfNoBorough with
     | .ok b => b.geo_data.map GeoRecord.borough
     | .error _ => [some ""]) = [none] ∧
    (none : Option String) ≠ some "Unknown" :=
  ⟨rfl, by with_unfolding_all rfl, by decide⟩

/-- Claim C10: binding any one filter key to a falsy value (the empty string;
a JSON null is already indistinguishable from an absent key, both reaching
the handler as Python `None`) filters exactly like leaving the key absent or
binding the sentinel "All", on every dataset and for each of the six keys. -/
theorem claim10_falsy (f : FilterSpec) (k : FilterKey) (df : List Row) :
    computeStats (setKey f k (some "")) df =
      computeStats (setKey f k none) df ∧
    computeStats (setKey f k (some "")) df =
      computeStats (setKey f k (some "All")) df := by
  cases k <;>
    exact ⟨computeStats_congr _ _ df rfl rfl rfl rfl rfl rfl,
      computeStats_congr _ _ df rfl rfl rfl rfl rfl rfl⟩

end CrashStats
